import Mathlib

/-!
Shallow embedding of the ShopMart auth contract.

Source files embedded here:
- `src/client/src/__tests__/mocks/handlers.js` — the MSW auth handlers
  (login, signup, me), the `mockUsers` store, `validCredentials` and
  `generateMockToken`.
- `src/client/src/context/AuthContext.jsx` — the client auth store
  (state, bootstrap effect, `fetchUser`, `logout`, `isAuthenticated`).

Modelling conventions:
- JS strings are `List Char` (`Str`); `.length` is the number of code
  points (the sources only ever measure ASCII strings).
- JSON body fields are `Option Str`: `none` is an absent field, `some`
  a string value.  JS truthiness on such a field (`!email`) is `falsy`.
- `Date.now()` and `new Date().toISOString()` are passed in explicitly
  (`now : Nat`, `nowIso : Str`): the handlers are otherwise pure.
- The module-level `mockUsers` array is never written to anywhere in the
  repository (the signup handler builds `newUser` but never pushes it),
  so every request is evaluated against the same constant store.
-/

namespace ShopMart

/-- JS strings, as lists of characters. -/
abbrev Str := List Char

/-- Truthiness test of an optional string body field: JS `!x` is true for
`undefined` and for the empty string. -/
def falsy : Option Str → Bool
  | none => true
  | some s => s.isEmpty

/-- A record of the `mockUsers` array in `handlers.js`.  `password` holds the
(mock) bcrypt hash, exactly as stored. -/
structure User where
  id : Nat
  email : Str
  firstName : Option Str
  lastName : Option Str
  password : Str
  createdAt : Str
deriving DecidableEq, Repr

/-- The first seeded user of `mockUsers`. -/
def johnUser : User :=
  { id := 1
    email := "john@example.com".data
    firstName := some ("John".data)
    lastName := some ("Doe".data)
    password := "$2a$10$mockhashedpassword123".data
    createdAt := "2024-01-15T10:30:00.000Z".data }

/-- The second seeded user of `mockUsers`. -/
def janeUser : User :=
  { id := 2
    email := "jane@example.com".data
    firstName := some ("Jane".data)
    lastName := some ("Smith".data)
    password := "$2a$10$mockhashedpassword456".data
    createdAt := "2024-01-20T14:45:00.000Z".data }

/-- The seeded `mockUsers` store from `handlers.js`. -/
def mockUsers : List User := [johnUser, janeUser]

/-- The `validCredentials` plain-text password map from `handlers.js`
(JS object lookup: `undefined` for unknown keys). -/
def validCredentials (email : Str) : Option Str :=
  if email = "john@example.com".data then some ("password123".data)
  else if email = "jane@example.com".data then some ("password456".data)
  else none

/-! ### String utilities: JS `split`, `parseInt`, number printing -/

/-- JS `String.prototype.split` with a one-character separator: splits on
every occurrence and keeps empty pieces (`"a--b".split('-') = ["a","","b"]`,
`"".split('-') = [""]`). -/
def splitOnChar (sep : Char) : Str → List Str
  | [] => [[]]
  | c :: rest =>
    match splitOnChar sep rest with
    | [] => [[]]
    | h :: t => if c = sep then [] :: h :: t else (c :: h) :: t

/-- The JS `\s` character class (ECMAScript WhiteSpace and LineTerminator
code points), by code point. -/
def jsWs (c : Char) : Bool :=
  c.toNat = 32 || c.toNat = 9 || c.toNat = 10 || c.toNat = 13 ||
  c.toNat = 11 || c.toNat = 12 || c.toNat = 160 || c.toNat = 5760 ||
  (8192 ≤ c.toNat && c.toNat ≤ 8202) || c.toNat = 8232 || c.toNat = 8233 ||
  c.toNat = 8239 || c.toNat = 8287 || c.toNat = 12288 || c.toNat = 65279

/-- Decimal digit value of a character (code points 48–57), `none` for
non-digits. -/
def charToDigit (c : Char) : Option Nat :=
  if 48 ≤ c.toNat ∧ c.toNat ≤ 57 then some (c.toNat - 48) else none

/-- Hexadecimal digit value of a character (`0`–`9`, `a`–`f`, `A`–`F`),
`none` for non-hex-digits. -/
def hexDigitVal (c : Char) : Option Nat :=
  if 48 ≤ c.toNat ∧ c.toNat ≤ 57 then some (c.toNat - 48)
  else if 97 ≤ c.toNat ∧ c.toNat ≤ 102 then some (c.toNat - 87)
  else if 65 ≤ c.toNat ∧ c.toNat ≤ 70 then some (c.toNat - 55)
  else none

/-- Value of a list of decimal digit characters, most significant first. -/
def digitsToNat (ds : Str) : Nat :=
  ds.foldl (fun a c => 10 * a + (charToDigit c).getD 0) 0

/-- Value of a list of hexadecimal digit characters, most significant first. -/
def hexToNat (ds : Str) : Nat :=
  ds.foldl (fun a c => 16 * a + (hexDigitVal c).getD 0) 0

/-- Greedy decimal parse of a leading run of digits; `none` (JS `NaN`) when
there is no leading digit. -/
def decParse (s : Str) : Option Nat :=
  match s.takeWhile (fun c => (charToDigit c).isSome) with
  | [] => none
  | ds => some (digitsToNat ds)

/-- Greedy hexadecimal parse of a leading run of hex digits; `none` when
there is no leading hex digit. -/
def hexParse (s : Str) : Option Nat :=
  match s.takeWhile (fun c => (hexDigitVal c).isSome) with
  | [] => none
  | ds => some (hexToNat ds)

/-- Unsigned part of JS `parseInt(s)` (radix auto-detection: a leading
`0x`/`0X` selects base 16, otherwise base 10). -/
def jsParseNat (s : Str) : Option Nat :=
  match s with
  | c0 :: c1 :: r =>
    if c0 = '0' ∧ (c1 = 'x' ∨ c1 = 'X') then hexParse r else decParse s
  | _ => decParse s

/-- JS `parseInt(s)` with no radix argument: skip leading whitespace, read an
optional sign, then greedily parse digits; `none` is `NaN`.  (Idealised to
arbitrary precision; the program only ever parses small user ids.) -/
def jsParseInt (s : Str) : Option Int :=
  match s.dropWhile jsWs with
  | [] => none
  | c :: r =>
    if c = '+' then (jsParseNat r).map (fun n => (n : Int))
    else if c = '-' then (jsParseNat r).map (fun n => -(n : Int))
    else (jsParseNat (c :: r)).map (fun n => (n : Int))

/-- The decimal digit character of `n % 10`. -/
def digitChar : Nat → Char
  | 0 => '0'
  | 1 => '1'
  | 2 => '2'
  | 3 => '3'
  | 4 => '4'
  | 5 => '5'
  | 6 => '6'
  | 7 => '7'
  | 8 => '8'
  | _ => '9'

/-- Fuel-driven decimal printing of a natural number (structural recursion so
that concrete tokens evaluate by `decide`). -/
def natStrAux : Nat → Nat → Str
  | 0, _ => []
  | f + 1, n => if n < 10 then [digitChar n] else natStrAux f (n / 10) ++ [digitChar (n % 10)]

/-- Decimal representation of a natural number, embedding JS string
interpolation of a number. -/
def natStr (n : Nat) : Str := natStrAux (n + 1) n

/-! ### The email regex

`handlers.js` checks `/^[^\s@]+@[^\s@]+\.[^\s@]+$/.test(email)`.
`emailRegexTest` is a decision procedure for that anchored regex; the
theorem for claim C4 proves it equivalent to the regex's standard
semantics (`EmailShape`). -/

/-- The `[^\s@]` character class of the email regex. -/
def emailChar (c : Char) : Bool := !jsWs c && c != '@'

/-- Holds (as `true`) iff the list has a `'.'` at some position other than the last. -/
def dotNotLast : Str → Bool
  | [] => false
  | [_] => false
  | c :: rest => c == '.' || dotNotLast rest

/-- Holds (as `true`) iff the list can be split as `b ++ '.' :: c` with `b` and `c`
both nonempty (the `[^\s@]+\.[^\s@]+` tail of the regex, ignoring the
character-class constraints, which are checked separately). -/
def dotSplitOk : Str → Bool
  | [] => false
  | _ :: rest => dotNotLast rest

/-- Decision procedure for `/^[^\s@]+@[^\s@]+\.[^\s@]+$/.test(s)`. -/
def emailRegexTest (s : Str) : Bool :=
  match splitOnChar '@' s with
  | [l, r] => !l.isEmpty && l.all emailChar && r.all emailChar && dotSplitOk r
  | _ => false

/-- The standard semantics of the anchored regex
`^[^\s@]+@[^\s@]+\.[^\s@]+$`: a nonempty run of non-whitespace/non-`@`
characters, a literal `@`, a nonempty such run, a literal `.`, and a final
nonempty such run. -/
def EmailShape (e : Str) : Prop :=
  ∃ l b c : Str,
    e = l ++ '@' :: (b ++ '.' :: c) ∧
    l ≠ [] ∧ b ≠ [] ∧ c ≠ [] ∧
    (∀ ch ∈ l, emailChar ch = true) ∧
    (∀ ch ∈ b, emailChar ch = true) ∧
    (∀ ch ∈ c, emailChar ch = true)

/-! ### Responses -/

/-- JSON values appearing in the response `user` objects. -/
inductive JVal where
  | jnum (n : Int)
  | jstr (s : Str)
  | jnull
deriving DecidableEq, Repr

/-- A JSON object, as the ordered list of its key/value pairs. -/
abbrev JObj := List (String × JVal)

/-- The observable part of an `HttpResponse.json` reply from the handlers:
HTTP status, the `success` flag, and the optional `message`, `data.user`
and `data.token` fields of the body. -/
structure Resp where
  status : Nat
  success : Bool
  message : Option String
  user : Option JObj
  token : Option Str
deriving DecidableEq, Repr

/-- JS `x || null` on an optional string field (JS: falsy becomes `null`). -/
def jsOrNull : Option Str → JVal
  | none => JVal.jnull
  | some s => if s.isEmpty then JVal.jnull else JVal.jstr s

/-- A stored optional string rendered into a response object. -/
def jFld : Option Str → JVal
  | none => JVal.jnull
  | some s => JVal.jstr s

/-- The `generateMockToken` helper from `handlers.js`:
`mock-jwt-token-${userId}-${email}-${Date.now()}`. -/
def generateMockToken (userId : Nat) (email : Str) (now : Nat) : Str :=
  "mock-jwt-token-".data ++ natStr userId ++ '-' :: (email ++ '-' :: natStr now)

/-- The `user` object of a successful login response (`id`, `email`,
`firstName`, `lastName` — no `password`, no `createdAt`). -/
def loginUserObj (u : User) : JObj :=
  [ ("id", JVal.jnum u.id)
  , ("email", JVal.jstr u.email)
  , ("firstName", jFld u.firstName)
  , ("lastName", jFld u.lastName) ]

/-- The `user` object of a successful `me` response (`id`, `email`,
`firstName`, `lastName`, `createdAt` — no `password`). -/
def meUserObj (u : User) : JObj :=
  [ ("id", JVal.jnum u.id)
  , ("email", JVal.jstr u.email)
  , ("firstName", jFld u.firstName)
  , ("lastName", jFld u.lastName)
  , ("createdAt", JVal.jstr u.createdAt) ]

/-- The `newUser` object built by the signup handler. -/
def newUserObj (newId : Nat) (email : Str) (firstName lastName : Option Str)
    (nowIso : Str) : JObj :=
  [ ("id", JVal.jnum newId)
  , ("email", JVal.jstr email)
  , ("firstName", jsOrNull firstName)
  , ("lastName", jsOrNull lastName)
  , ("createdAt", JVal.jstr nowIso) ]

def msgRequired : String := "Email and password are required"
def msgBadEmailFmt : String := "Invalid email format"
def msgShortPassword : String := "Password must be at least 6 characters long"
def msgConflict : String := "User with this email already exists"
def msgInvalidCred : String := "Invalid email or password"
def msgLoginOk : String := "Login successful"
def msgCreated : String := "User created successfully"
def msgNoToken : String := "No token provided"
def msgBadToken : String := "Invalid or expired token"
def msgUserNotFound : String := "User not found"

def requiredResp : Resp := ⟨400, false, some msgRequired, none, none⟩
def badEmailResp : Resp := ⟨400, false, some msgBadEmailFmt, none, none⟩
def shortPasswordResp : Resp := ⟨400, false, some msgShortPassword, none, none⟩
def conflictResp : Resp := ⟨409, false, some msgConflict, none, none⟩
def invalidCredResp : Resp := ⟨401, false, some msgInvalidCred, none, none⟩
def noTokenResp : Resp := ⟨401, false, some msgNoToken, none, none⟩
def badTokenResp : Resp := ⟨401, false, some msgBadToken, none, none⟩
def userNotFoundResp : Resp := ⟨404, false, some msgUserNotFound, none, none⟩

/-- Successful `me` response for a stored user (status 200, no `message`,
no `token`). -/
def meOkResp (u : User) : Resp := ⟨200, true, none, some (meUserObj u), none⟩

/-! ### The three auth handlers

Each handler closes over the module-level `mockUsers` (and, for login,
`validCredentials`); the `Core` functions take them as parameters and the
`Req` functions instantiate them, which is exact because nothing in the
repository ever writes to either module variable. -/

/-- The login handler of `handlers.js`. -/
def loginCore (store : List User) (creds : Str → Option Str)
    (email password : Option Str) (now : Nat) : Resp :=
  if falsy email || falsy password then requiredResp
  else
    match store.find? (fun u => u.email == email.getD []) with
    | none => invalidCredResp
    | some u =>
      if creds (email.getD []) ≠ some (password.getD []) then invalidCredResp
      else ⟨200, true, some msgLoginOk, some (loginUserObj u),
            some (generateMockToken u.id u.email now)⟩

/-- Handler for `POST */api/auth/login`. -/
def loginReq (email password : Option Str) (now : Nat) : Resp :=
  loginCore mockUsers validCredentials email password now

/-- The signup handler of `handlers.js`.  Note that the handler never adds
`newUser` to the store: the function returns only the response, and the
store visible to subsequent requests is unchanged. -/
def signupCore (store : List User)
    (email password firstName lastName : Option Str)
    (now : Nat) (nowIso : Str) : Resp :=
  if falsy email || falsy password then requiredResp
  else if !emailRegexTest (email.getD []) then badEmailResp
  else if (password.getD []).length < 6 then shortPasswordResp
  else
    match store.find? (fun u => u.email == email.getD []) with
    | some _ => conflictResp
    | none =>
      ⟨201, true, some msgCreated,
       some (newUserObj (store.length + 1) (email.getD []) firstName lastName nowIso),
       some (generateMockToken (store.length + 1) (email.getD []) now)⟩

/-- Handler for `POST */api/auth/signup`. -/
def signupReq (email password firstName lastName : Option Str)
    (now : Nat) (nowIso : Str) : Resp :=
  signupCore mockUsers email password firstName lastName now nowIso

/-- The marker `"Bearer "` checked by `authHeader.startsWith('Bearer ')`. -/
def bearerMark : Str := "Bearer ".data

/-- The marker `"mock-jwt-token-"` checked by
`token.startsWith('mock-jwt-token-')`. -/
def tokenMark : Str := "mock-jwt-token-".data

/-- The token piece `authHeader.split(' ')[1]` (JS: `undefined` — falsy — when there is no
second piece, which the caller tests with `!token`; `[]` plays that role). -/
def meToken (h : Str) : Str := (splitOnChar ' ' h).getD 1 []

/-- The value `parseInt(token.split('-')[3])`: the candidate user id of a token. -/
def tokenUserId (token : Str) : Option Int :=
  jsParseInt ((splitOnChar '-' token).getD 3 [])

/-- The test `u.id === userId` where `userId` may be `NaN` (`none`), which matches
no user. -/
def uidMatches (uid : Option Int) (u : User) : Bool :=
  match uid with
  | some i => (u.id : Int) == i
  | none => false

/-- The lookup `mockUsers.find(u => u.id === userId)` for the id embedded in a token. -/
def lookupByToken (store : List User) (token : Str) : Option User :=
  store.find? (uidMatches (tokenUserId token))

/-- The `me` handler of `handlers.js`. -/
def meCore (store : List User) (authHeader : Option Str) : Resp :=
  match authHeader with
  | none => noTokenResp
  | some h =>
    if h.isEmpty || !bearerMark.isPrefixOf h then noTokenResp
    else if (meToken h).isEmpty || !tokenMark.isPrefixOf (meToken h) then badTokenResp
    else
      match lookupByToken store (meToken h) with
      | none => userNotFoundResp
      | some u => meOkResp u

/-- Handler for `GET */api/auth/me`. -/
def meReq (authHeader : Option Str) : Resp := meCore mockUsers authHeader

/-! ### The client auth store (`AuthContext.jsx`)

State: `user` (held user object), `token` (in-memory token), `stored`
(the `localStorage` slot named `token`), `loading`.  The provider
initialises `token` from `localStorage.getItem('token')` and `loading`
to `true`; the mount effect calls `fetchUser` when a token is held and
otherwise just clears `loading`. -/

/-- The state of `AuthProvider` plus the durable `localStorage` slot. -/
structure ClientState where
  user : Option JObj
  token : Option Str
  stored : Option Str
  loading : Bool
deriving DecidableEq, Repr

/-- The derived `isAuthenticated: !!user` flag exposed in the provider
value. -/
def isAuthenticated (s : ClientState) : Bool := s.user.isSome

/-- Provider state at mount: `useState(null)`, `useState(localStorage.
getItem('token'))`, `useState(true)`. -/
def initClient (stored0 : Option Str) : ClientState :=
  { user := none, token := stored0, stored := stored0, loading := true }

/-- The `logout()` action: remove the durable token, clear the held token and user. -/
def logoutClient (s : ClientState) : ClientState :=
  { s with stored := none, token := none, user := none }

/-- How a `fetchUser` call can end: with a parsed JSON response, or with a
transport failure (the `catch` branch). -/
inductive FetchOutcome where
  | response (r : Resp)
  | netError
deriving DecidableEq, Repr

/-- The `fetchUser` resolution: on `data.success` hold `data.data.user`; on any service
error or transport failure call `logout()`; in all cases finish with
`setLoading(false)`. -/
def applyFetch (s : ClientState) (o : FetchOutcome) : ClientState :=
  match o with
  | FetchOutcome.response r =>
    if r.success then { s with user := r.user, loading := false }
    else { logoutClient s with loading := false }
  | FetchOutcome.netError => { logoutClient s with loading := false }

/-- Client bootstrap: read the durable token; with a token held, resolve it
via `fetchUser` (ending in `o`); with no token, only clear `loading`. -/
def bootstrapClient (stored0 : Option Str) (o : FetchOutcome) : ClientState :=
  match (initClient stored0).token with
  | some _ => applyFetch (initClient stored0) o
  | none => { initClient stored0 with loading := false }

/-- The state writes shared by the `login` and `signup` success branches:
persist the token durably, hold the token and the returned user. -/
def authSuccessStep (s : ClientState) (u : JObj) (t : Str) : ClientState :=
  { s with stored := some t, token := some t, user := some u }

/-- One observable transition of the client store: a `fetchUser` resolution
(only possible while a token is held), a login or signup result, a
logout, or the no-token bootstrap step. -/
inductive ClientStep : ClientState → ClientState → Prop where
  | fetch (s : ClientState) (t : Str) (o : FetchOutcome) :
      s.token = some t → ClientStep s (applyFetch s o)
  | loginOk (s : ClientState) (u : JObj) (t : Str) :
      ClientStep s (authSuccessStep s u t)
  | loginErr (s : ClientState) : ClientStep s s
  | signupOk (s : ClientState) (u : JObj) (t : Str) :
      ClientStep s (authSuccessStep s u t)
  | signupErr (s : ClientState) : ClientStep s s
  | doLogout (s : ClientState) : ClientStep s (logoutClient s)
  | bootDone (s : ClientState) :
      s.token = none → ClientStep s { s with loading := false }

/-- The client states reachable from some mount state by observable
transitions. -/
def ReachableClient (s : ClientState) : Prop :=
  ∃ stored0, Relation.ReflTransGen ClientStep (initClient stored0) s

/-- The fully-cleared final state: no user, no token in memory or durable
storage, loading finished. -/
def unauthDone : ClientState :=
  { user := none, token := none, stored := none, loading := false }

/-- A `fetchUser` call that fails for any reason: the service reports
failure, or the transport errors. -/
def FetchFailed (o : FetchOutcome) : Prop :=
  o = FetchOutcome.netError ∨
    ∃ r, o = FetchOutcome.response r ∧ r.success = false

/-! ### Lemmas about `splitOnChar` -/

lemma not_mem_cons_of (c sep : Char) (rest : Str) (hc : c ≠ sep)
    (h : sep ∉ rest) : sep ∉ c :: rest := by
  intro hm
  rcases List.mem_cons.mp hm with hh | hh
  · exact hc hh.symm
  · exact h hh

lemma splitOnChar_ne_nil (sep : Char) (s : Str) : splitOnChar sep s ≠ [] := by
  cases s with
  | nil => simp [splitOnChar]
  | cons c rest =>
    simp only [splitOnChar]
    cases h : splitOnChar sep rest with
    | nil => simp
    | cons hd tl => by_cases hc : c = sep <;> simp [hc]

lemma splitOnChar_no_sep (sep : Char) (xs : Str) (h : sep ∉ xs) :
    splitOnChar sep xs = [xs] := by
  induction xs with
  | nil => rfl
  | cons c rest ih =>
    have hc : c ≠ sep := fun hh => h (hh ▸ List.mem_cons_self c rest)
    have hrest : sep ∉ rest := fun hh => h (List.mem_cons_of_mem c hh)
    simp only [splitOnChar]
    rw [ih hrest]
    simp [hc]

lemma splitOnChar_append_cons (sep : Char) (xs ys : Str) (h : sep ∉ xs) :
    splitOnChar sep (xs ++ sep :: ys) = xs :: splitOnChar sep ys := by
  induction xs with
  | nil =>
    simp only [List.nil_append, splitOnChar]
    cases hys : splitOnChar sep ys with
    | nil => exact absurd hys (splitOnChar_ne_nil sep ys)
    | cons hd tl => simp
  | cons c rest ih =>
    have hc : c ≠ sep := fun hh => h (hh ▸ List.mem_cons_self c rest)
    have hrest : sep ∉ rest := fun hh => h (List.mem_cons_of_mem c hh)
    rw [List.cons_append]
    simp only [splitOnChar]
    rw [ih hrest]
    simp [hc]

lemma splitOnChar_eq_single (sep : Char) (e y : Str)
    (h : splitOnChar sep e = [y]) : e = y ∧ sep ∉ e := by
  induction e generalizing y with
  | nil =>
    simp only [splitOnChar] at h
    cases h
    simp
  | cons c rest ih =>
    simp only [splitOnChar] at h
    cases hrest : splitOnChar sep rest with
    | nil => exact absurd hrest (splitOnChar_ne_nil sep rest)
    | cons hd tl =>
      rw [hrest] at h
      by_cases hc : c = sep
      · simp [hc] at h
      · simp only [if_neg hc] at h
        cases h
        obtain ⟨h1, h2⟩ := ih hd hrest
        subst h1
        exact ⟨rfl, not_mem_cons_of c sep rest hc h2⟩

lemma splitOnChar_eq_pair (sep : Char) (e l r : Str)
    (h : splitOnChar sep e = [l, r]) :
    e = l ++ sep :: r ∧ sep ∉ l ∧ sep ∉ r := by
  induction e generalizing l r with
  | nil => simp [splitOnChar] at h
  | cons c rest ih =>
    simp only [splitOnChar] at h
    cases hrest : splitOnChar sep rest with
    | nil => exact absurd hrest (splitOnChar_ne_nil sep rest)
    | cons hd tl =>
      rw [hrest] at h
      by_cases hc : c = sep
      · simp only [if_pos hc] at h
        cases h
        obtain ⟨h1, h2⟩ := splitOnChar_eq_single sep rest r hrest
        subst h1 hc
        exact ⟨rfl, by simp, h2⟩
      · simp only [if_neg hc] at h
        cases h
        obtain ⟨h1, h2, h3⟩ := ih hd r hrest
        subst h1
        exact ⟨rfl, not_mem_cons_of c sep hd hc h2, h3⟩

lemma isPrefixOf_append_self (xs ys : Str) : xs.isPrefixOf (xs ++ ys) = true := by
  simp [List.isPrefixOf_iff_prefix]

/-! ### Lemmas about digits, `natStr` and `jsParseInt` -/

lemma charToDigit_digitChar (d : Nat) (h : d ≤ 9) :
    charToDigit (digitChar d) = some d := by
  interval_cases d <;> decide

lemma charToDigit_digitChar_isSome (n : Nat) :
    (charToDigit (digitChar n)).isSome = true := by
  unfold digitChar
  split <;> decide

lemma charToDigit_isSome_iff (c : Char) :
    (charToDigit c).isSome = true ↔ 48 ≤ c.toNat ∧ c.toNat ≤ 57 := by
  unfold charToDigit
  split
  next hcond => simp [hcond]
  next hcond => simp [hcond]

lemma natStrAux_digits (f : Nat) :
    ∀ n, ∀ c ∈ natStrAux f n, (charToDigit c).isSome = true := by
  induction f with
  | zero => intro n c hc; simp [natStrAux] at hc
  | succ f ih =>
    intro n c hc
    simp only [natStrAux] at hc
    by_cases hn : n < 10
    · rw [if_pos hn] at hc
      rcases List.mem_singleton.mp hc with rfl
      exact charToDigit_digitChar_isSome n
    · rw [if_neg hn] at hc
      rcases List.mem_append.mp hc with hh | hh
      · exact ih (n / 10) c hh
      · rcases List.mem_singleton.mp hh with rfl
        exact charToDigit_digitChar_isSome (n % 10)

lemma natStr_digits (n : Nat) :
    ∀ c ∈ natStr n, (charToDigit c).isSome = true :=
  natStrAux_digits (n + 1) n

lemma not_mem_natStr (n : Nat) (c : Char)
    (h : (charToDigit c).isSome = false) : c ∉ natStr n := by
  intro hc
  rw [natStr_digits n c hc] at h
  cases h

lemma digitsToNat_append_one (xs : Str) (c : Char) :
    digitsToNat (xs ++ [c]) = 10 * digitsToNat xs + (charToDigit c).getD 0 := by
  simp [digitsToNat, List.foldl_append]

lemma natStrAux_spec (f : Nat) :
    ∀ n, n < 10 ^ f →
      digitsToNat (natStrAux (f + 1) n) = n ∧ natStrAux (f + 1) n ≠ [] := by
  induction f with
  | zero =>
    intro n hn
    interval_cases n
    constructor <;> decide
  | succ f ih =>
    intro n hn
    by_cases h10 : n < 10
    · have : natStrAux (f + 1 + 1) n = [digitChar n] := by
        simp [natStrAux, h10]
      rw [this]
      refine ⟨?_, by simp⟩
      simp [digitsToNat, charToDigit_digitChar n (by omega)]
    · have hstep : natStrAux (f + 1 + 1) n
          = natStrAux (f + 1) (n / 10) ++ [digitChar (n % 10)] := by
        simp [natStrAux, h10]
      have hdiv : n / 10 < 10 ^ f := by
        rw [Nat.div_lt_iff_lt_mul (by norm_num : 0 < 10)]
        calc n < 10 ^ (f + 1) := hn
        _ = 10 ^ f * 10 := by ring
      obtain ⟨hval, hne⟩ := ih (n / 10) hdiv
      rw [hstep, digitsToNat_append_one, hval,
        charToDigit_digitChar (n % 10) (by omega)]
      simp only [Option.getD_some]
      refine ⟨by omega, by simp⟩

lemma natStr_spec (n : Nat) : digitsToNat (natStr n) = n ∧ natStr n ≠ [] :=
  natStrAux_spec n n (Nat.lt_pow_self (by norm_num) n)

lemma dropWhile_eq_self_of_false {p : Char → Bool} (xs : Str)
    (h : ∀ c ∈ xs, p c = false) : xs.dropWhile p = xs := by
  cases xs with
  | nil => rfl
  | cons c rest =>
    have : p c = false := h c (List.mem_cons_self c rest)
    simp [List.dropWhile_cons, this]

lemma jsWs_eq_false_of_digit (c : Char)
    (h : (charToDigit c).isSome = true) : jsWs c = false := by
  have hrange := (charToDigit_isSome_iff c).mp h
  unfold jsWs
  simp only [Bool.or_eq_false_iff, Bool.and_eq_false_iff,
    decide_eq_false_iff_not]
  omega

lemma decParse_all_digits (s : Str) (hne : s ≠ [])
    (h : ∀ c ∈ s, (charToDigit c).isSome = true) :
    decParse s = some (digitsToNat s) := by
  have htake : s.takeWhile (fun c => (charToDigit c).isSome) = s :=
    List.takeWhile_eq_self_iff.mpr h
  unfold decParse
  rw [htake]
  cases s with
  | nil => exact absurd rfl hne
  | cons c rest => rfl

lemma jsParseNat_all_digits (s : Str) (hne : s ≠ [])
    (h : ∀ c ∈ s, (charToDigit c).isSome = true) :
    jsParseNat s = some (digitsToNat s) := by
  have hdec := decParse_all_digits s hne h
  cases s with
  | nil => exact absurd rfl hne
  | cons c0 rest =>
    cases rest with
    | nil => exact hdec
    | cons c1 r =>
      have h1 : (charToDigit c1).isSome = true :=
        h c1 (List.mem_cons_of_mem c0 (List.mem_cons_self c1 r))
      have hcond : ¬(c0 = '0' ∧ (c1 = 'x' ∨ c1 = 'X')) := by
        rintro ⟨-, rfl | rfl⟩ <;> exact absurd h1 (by decide)
      simp only [jsParseNat]
      rw [if_neg hcond]
      exact hdec

lemma jsParseInt_all_digits (s : Str) (hne : s ≠ [])
    (h : ∀ c ∈ s, (charToDigit c).isSome = true) :
    jsParseInt s = some ((digitsToNat s : Nat) : Int) := by
  have hdrop : s.dropWhile jsWs = s :=
    dropWhile_eq_self_of_false s (fun c hc => jsWs_eq_false_of_digit c (h c hc))
  have hnat := jsParseNat_all_digits s hne h
  unfold jsParseInt
  rw [hdrop]
  cases s with
  | nil => exact absurd rfl hne
  | cons c r =>
    have hc : (charToDigit c).isSome = true := h c (List.mem_cons_self c r)
    have hplus : c ≠ '+' := by rintro rfl; exact absurd hc (by decide)
    have hminus : c ≠ '-' := by rintro rfl; exact absurd hc (by decide)
    simp only [if_neg hplus, if_neg hminus]
    rw [hnat]
    rfl

lemma jsParseInt_natStr (n : Nat) : jsParseInt (natStr n) = some (n : Int) := by
  obtain ⟨hval, hne⟩ := natStr_spec n
  rw [jsParseInt_all_digits (natStr n) hne (natStr_digits n), hval]

/-! ### The email test decides the regex -/

lemma dotNotLast_iff (xs : Str) :
    dotNotLast xs = true ↔ ∃ p q : Str, xs = p ++ '.' :: q ∧ q ≠ [] := by
  induction xs with
  | nil =>
    simp only [dotNotLast]
    constructor
    · intro h; cases h
    · rintro ⟨p, q, hpq, -⟩
      exact absurd hpq.symm (List.append_ne_nil_of_right_ne_nil p (by simp))
  | cons a tail ih =>
    cases tail with
    | nil =>
      simp only [dotNotLast]
      constructor
      · intro h; cases h
      · rintro ⟨p, q, hpq, hq⟩
        have hlen := congrArg List.length hpq
        have hqlen : q.length ≠ 0 := fun hz => hq (List.length_eq_zero.mp hz)
        simp [List.length_append] at hlen
        omega
    | cons b rest =>
      simp only [dotNotLast]
      constructor
      · intro h
        rcases Bool.or_eq_true_iff.mp h with h | h
        · refine ⟨[], b :: rest, ?_, by simp⟩
          rw [beq_iff_eq] at h
          rw [h]
          rfl
        · obtain ⟨p, q, hpq, hq⟩ := ih.mp h
          exact ⟨a :: p, q, by rw [List.cons_append, ← hpq], hq⟩
      · rintro ⟨p, q, hpq, hq⟩
        cases p with
        | nil =>
          injection hpq with h1 h2
          subst h1
          simp
        | cons p0 ptail =>
          injection hpq with h1 h2
          have := ih.mpr ⟨ptail, q, h2, hq⟩
          simp [this]

lemma dotSplitOk_iff (r : Str) :
    dotSplitOk r = true ↔ ∃ b c : Str, r = b ++ '.' :: c ∧ b ≠ [] ∧ c ≠ [] := by
  cases r with
  | nil =>
    simp only [dotSplitOk]
    constructor
    · intro h; cases h
    · rintro ⟨b, c, hbc, hb, -⟩
      cases b with
      | nil => exact absurd rfl hb
      | cons b0 bt => exact absurd hbc (by simp)
  | cons a tail =>
    simp only [dotSplitOk, dotNotLast_iff tail]
    constructor
    · rintro ⟨p, q, hpq, hq⟩
      exact ⟨a :: p, q, by rw [List.cons_append, ← hpq], by simp, hq⟩
    · rintro ⟨b, c, hbc, hb, hc⟩
      cases b with
      | nil => exact absurd rfl hb
      | cons b0 btail =>
        injection hbc with h1 h2
        exact ⟨btail, c, h2, hc⟩

lemma emailChar_at : emailChar '@' = false := by decide

lemma emailChar_dot : emailChar '.' = true := by decide

lemma emailRegexTest_iff (e : Str) : emailRegexTest e = true ↔ EmailShape e := by
  constructor
  · intro h
    unfold emailRegexTest at h
    cases hsp : splitOnChar '@' e with
    | nil => exact absurd hsp (splitOnChar_ne_nil '@' e)
    | cons l t1 =>
      cases t1 with
      | nil => rw [hsp] at h; exact Bool.noConfusion h
      | cons r t2 =>
        cases t2 with
        | cons r2 t3 => rw [hsp] at h; exact Bool.noConfusion h
        | nil =>
          rw [hsp] at h
          simp only [Bool.and_eq_true, Bool.not_eq_true'] at h
          obtain ⟨⟨⟨hl, hall_l⟩, hall_r⟩, hdot⟩ := h
          obtain ⟨heq, hnl, hnr⟩ := splitOnChar_eq_pair '@' e l r hsp
          obtain ⟨b, c, hbc, hb, hc⟩ := (dotSplitOk_iff r).mp hdot
          subst hbc
          refine ⟨l, b, c, by rw [heq], ?_, hb, hc, ?_, ?_, ?_⟩
          · exact fun hz => by rw [hz] at hl; cases hl
          · exact fun ch hch => List.all_eq_true.mp hall_l ch hch
          · exact fun ch hch =>
              List.all_eq_true.mp hall_r ch (List.mem_append_left _ hch)
          · exact fun ch hch =>
              List.all_eq_true.mp hall_r ch
                (List.mem_append_right _ (List.mem_cons_of_mem '.' hch))
  · rintro ⟨l, b, c, rfl, hl, hb, hc, hal, hab, hac⟩
    have hnotl : '@' ∉ l := fun hm => by
      have := hal '@' hm
      rw [emailChar_at] at this
      cases this
    have hnotr : '@' ∉ b ++ '.' :: c := by
      intro hm
      rcases List.mem_append.mp hm with hm | hm
      · have := hab '@' hm
        rw [emailChar_at] at this
        cases this
      · rcases List.mem_cons.mp hm with hm | hm
        · exact absurd hm (by decide)
        · have := hac '@' hm
          rw [emailChar_at] at this
          cases this
    have hsp : splitOnChar '@' (l ++ '@' :: (b ++ '.' :: c)) = [l, b ++ '.' :: c] := by
      rw [splitOnChar_append_cons '@' l _ hnotl, splitOnChar_no_sep '@' _ hnotr]
    unfold emailRegexTest
    rw [hsp]
    simp only [Bool.and_eq_true, Bool.not_eq_true']
    refine ⟨⟨⟨?_, ?_⟩, ?_⟩, ?_⟩
    · cases l with
      | nil => exact absurd rfl hl
      | cons c0 ct => rfl
    · exact List.all_eq_true.mpr hal
    · refine List.all_eq_true.mpr ?_
      intro ch hch
      rcases List.mem_append.mp hch with hm | hm
      · exact hab ch hm
      · rcases List.mem_cons.mp hm with hm | hm
        · rw [hm]; exact emailChar_dot
        · exact hac ch hm
    · exact (dotSplitOk_iff _).mpr ⟨b, c, rfl, hb, hc⟩

/-! ### Token acceptance by the `me` handler -/

lemma meToken_of_clean (tok : Str) (hsp : ' ' ∉ tok) :
    meToken (bearerMark ++ tok) = tok := by
  have hb : bearerMark ++ tok = "Bearer".data ++ ' ' :: tok := rfl
  unfold meToken
  rw [hb, splitOnChar_append_cons ' ' _ _ (by decide),
    splitOnChar_no_sep ' ' tok hsp]
  rfl

lemma meReq_accepts (tok : Str) (i : Int) (u : User)
    (hpre : tokenMark.isPrefixOf tok = true)
    (hsp : ' ' ∉ tok)
    (hid : tokenUserId tok = some i)
    (hu : u ∈ mockUsers) (hiu : (u.id : Int) = i) :
    meReq (some (bearerMark ++ tok)) = meOkResp u := by
  have htok := meToken_of_clean tok hsp
  have hpre_h : bearerMark.isPrefixOf (bearerMark ++ tok) = true :=
    isPrefixOf_append_self _ _
  have hne_h : (bearerMark ++ tok).isEmpty = false := rfl
  obtain ⟨rest, hrest⟩ : ∃ rest, tokenMark ++ rest = tok :=
    List.isPrefixOf_iff_prefix.mp hpre
  have htokne : tok.isEmpty = false := by rw [← hrest]; rfl
  have hfind : lookupByToken mockUsers tok = some u := by
    unfold lookupByToken
    rw [hid]
    fin_cases hu <;> rw [← hiu] <;> decide
  simp [meReq, meCore, htok, hne_h, hpre_h, htokne, hpre, hfind]

lemma falsy_some_ne (s : Str) (h : s ≠ []) : falsy (some s) = false := by
  cases s with
  | nil => exact absurd rfl h
  | cons c t => rfl

lemma space_not_in_natStr (n : Nat) : ' ' ∉ natStr n :=
  not_mem_natStr n ' ' rfl

lemma dash_not_in_natStr (n : Nat) : '-' ∉ natStr n :=
  not_mem_natStr n '-' rfl

lemma generateMockToken_shape (uid : Nat) (email : Str) (now : Nat) :
    generateMockToken uid email now
      = tokenMark ++ (natStr uid ++ '-' :: (email ++ '-' :: natStr now)) := by
  simp [generateMockToken, tokenMark, List.append_assoc]

lemma split_tokenMark (rest : Str) :
    splitOnChar '-' (tokenMark ++ rest)
      = "mock".data :: "jwt".data :: "token".data :: splitOnChar '-' rest := by
  have h1 : tokenMark ++ rest
      = "mock".data ++ '-' :: ("jwt".data ++ '-' :: ("token".data ++ '-' :: rest)) := rfl
  rw [h1, splitOnChar_append_cons '-' _ _ (by decide),
    splitOnChar_append_cons '-' _ _ (by decide),
    splitOnChar_append_cons '-' _ _ (by decide)]

lemma tokenUserId_gen (uid : Nat) (email : Str) (now : Nat) :
    tokenUserId (generateMockToken uid email now) = some (uid : Int) := by
  unfold tokenUserId
  rw [generateMockToken_shape, split_tokenMark,
    splitOnChar_append_cons '-' _ _ (dash_not_in_natStr uid)]
  have hget : ("mock".data :: "jwt".data :: "token".data :: natStr uid
      :: splitOnChar '-' (email ++ '-' :: natStr now)).getD 3 [] = natStr uid := rfl
  rw [hget, jsParseInt_natStr]

lemma space_not_in_gen (uid : Nat) (email : Str) (hemail : ' ' ∉ email)
    (now : Nat) : ' ' ∉ generateMockToken uid email now := by
  rw [generateMockToken_shape]
  intro hm
  rcases List.mem_append.mp hm with hm | hm
  · exact absurd hm (by decide)
  · rcases List.mem_append.mp hm with hm | hm
    · exact space_not_in_natStr uid hm
    · rcases List.mem_cons.mp hm with hm | hm
      · exact absurd hm (by decide)
      · rcases List.mem_append.mp hm with hm | hm
        · exact hemail hm
        · rcases List.mem_cons.mp hm with hm | hm
          · exact absurd hm (by decide)
          · exact space_not_in_natStr now hm

/-! ### The claims -/

/-- C1 (code bug): the round-trip claim fails for signup tokens.  Signing up
with the fresh email `new@x.com` succeeds with status 201 and issues the
token `mock-jwt-token-3-new@x.com-<now>`, but the signup handler never adds
the new user to `mockUsers`, so immediately presenting that very token to
GetCurrentUser yields 404 "User not found" instead of the claimed 200 with
the created user's id and email. -/
theorem signup_roundtrip_bug :
    (signupReq (some ("new@x.com".data)) (some ("password123".data))
        none none 0 []).status = 201 ∧
    (signupReq (some ("new@x.com".data)) (some ("password123".data))
        none none 0 []).token = some (generateMockToken 3 ("new@x.com".data) 0) ∧
    meReq (some (bearerMark ++
        ((signupReq (some ("new@x.com".data)) (some ("password123".data))
            none none 0 []).token.getD []))) = userNotFoundResp := by
  decide

/-- C2 (code bug): sequential duplicate signup does not yield 409.  Both of
two successive signups with the same fresh email `new@x.com` (and valid
password) return 201: the handler's conflict check does consult the store at
call time, but the store is never extended by a successful signup, so the
second call does not see the first user and does not return the claimed
409 conflict. -/
theorem signup_duplicate_bug :
    (signupReq (some ("new@x.com".data)) (some ("password123".data))
        none none 0 []).status = 201 ∧
    (signupReq (some ("new@x.com".data)) (some ("password123".data))
        none none 1 []).status = 201 ∧
    (signupReq (some ("new@x.com".data)) (some ("password123".data))
        none none 1 []).status ≠ 409 := by
  decide

/-- C3 (confirmed): user-enumeration resistance of login.  For any two
login requests with non-empty email and password — one whose email is
unknown to the store, one whose email is known but whose password fails
verification against `validCredentials` — the handler returns exactly the
same response: status 401, `success: false`, message
"Invalid email or password", no user and no token; in particular the two
responses are equal, so the failure causes are indistinguishable. -/
theorem login_enumeration_symmetry (e1 p1 e2 p2 : Str) (u : User) (n1 n2 : Nat)
    (he1 : e1 ≠ []) (hp1 : p1 ≠ []) (he2 : e2 ≠ []) (hp2 : p2 ≠ [])
    (hunknown : mockUsers.find? (fun v => v.email == e1) = none)
    (hknown : mockUsers.find? (fun v => v.email == e2) = some u)
    (hwrong : validCredentials e2 ≠ some p2) :
    loginReq (some e1) (some p1) n1 = invalidCredResp ∧
    loginReq (some e2) (some p2) n2 = invalidCredResp ∧
    loginReq (some e1) (some p1) n1 = loginReq (some e2) (some p2) n2 := by
  have h1 : loginReq (some e1) (some p1) n1 = invalidCredResp := by
    simp [loginReq, loginCore, falsy_some_ne e1 he1, falsy_some_ne p1 hp1,
      hunknown]
  have h2 : loginReq (some e2) (some p2) n2 = invalidCredResp := by
    simp [loginReq, loginCore, falsy_some_ne e2 he2, falsy_some_ne p2 hp2,
      hknown, hwrong]
  exact ⟨h1, h2, by rw [h1, h2]⟩

/-- Witness for C3 at concrete inputs: the unknown email
`ghost@example.com` and the known email `john@example.com` with the wrong
password `wrong` both yield the one 401 response. -/
theorem login_enumeration_symmetry_witness :
    loginReq (some ("ghost@example.com".data)) (some ("password123".data)) 0
      = invalidCredResp ∧
    loginReq (some ("john@example.com".data)) (some ("wrong".data)) 0
      = invalidCredResp := by
  have h := login_enumeration_symmetry ("ghost@example.com".data)
    ("password123".data) ("john@example.com".data) ("wrong".data) johnUser 0 0
    (by decide) (by decide) (by decide) (by decide)
    (by decide) (by decide) (by decide)
  exact ⟨h.1, h.2.1⟩

/-- C4 (confirmed): signup checks run in a fixed order and the first failing
one answers.  (1) A falsy email or password yields 400 "Email and password
are required" before anything else; (2) otherwise an email rejected by the
regex yields 400 "Invalid email format"; (3) otherwise a password shorter
than 6 yields 400 "Password must be at least 6 characters long";
(4) otherwise an email already in the store yields the 409 conflict;
(5) otherwise the user is created with status 201.  The final conjunct
proves the embedded regex test equivalent to the claimed
`local@domain.tld` shape (nonempty runs of non-whitespace/non-`@`
characters around a literal `@` and a literal `.`). -/
theorem signup_validation_order :
    (∀ (email password firstName lastName : Option Str) (now : Nat) (iso : Str),
        (falsy email || falsy password) = true →
        signupReq email password firstName lastName now iso = requiredResp) ∧
    (∀ (e p : Str) (fn ln : Option Str) (now : Nat) (iso : Str),
        e ≠ [] → p ≠ [] → emailRegexTest e = false →
        signupReq (some e) (some p) fn ln now iso = badEmailResp) ∧
    (∀ (e p : Str) (fn ln : Option Str) (now : Nat) (iso : Str),
        e ≠ [] → p ≠ [] → emailRegexTest e = true → p.length < 6 →
        signupReq (some e) (some p) fn ln now iso = shortPasswordResp) ∧
    (∀ (e p : Str) (fn ln : Option Str) (now : Nat) (iso : Str) (u : User),
        e ≠ [] → p ≠ [] → emailRegexTest e = true → 6 ≤ p.length →
        mockUsers.find? (fun v => v.email == e) = some u →
        signupReq (some e) (some p) fn ln now iso = conflictResp) ∧
    (∀ (e p : Str) (fn ln : Option Str) (now : Nat) (iso : Str),
        e ≠ [] → p ≠ [] → emailRegexTest e = true → 6 ≤ p.length →
        mockUsers.find? (fun v => v.email == e) = none →
        (signupReq (some e) (some p) fn ln now iso).status = 201 ∧
        (signupReq (some e) (some p) fn ln now iso).success = true) ∧
    (∀ e : Str, emailRegexTest e = true ↔ EmailShape e) := by
  refine ⟨?_, ?_, ?_, ?_, ?_, emailRegexTest_iff⟩
  · intro email password fn ln now iso h
    simp [signupReq, signupCore, h]
  · intro e p fn ln now iso he hp hreg
    simp [signupReq, signupCore, falsy_some_ne e he, falsy_some_ne p hp, hreg]
  · intro e p fn ln now iso he hp hreg hlen
    simp [signupReq, signupCore, falsy_some_ne e he, falsy_some_ne p hp,
      hreg, hlen]
  · intro e p fn ln now iso u he hp hreg hlen hfind
    have hnl : ¬p.length < 6 := by omega
    simp [signupReq, signupCore, falsy_some_ne e he, falsy_some_ne p hp,
      hreg, hnl, hfind]
  · intro e p fn ln now iso he hp hreg hlen hfind
    have hnl : ¬p.length < 6 := by omega
    simp [signupReq, signupCore, falsy_some_ne e he, falsy_some_ne p hp,
      hreg, hnl, hfind]

/-- Witness for C4: one concrete instance of each of the five outcomes and
of the regex characterisation. -/
theorem signup_validation_order_witness :
    signupReq none (some ("password123".data)) none none 0 [] = requiredResp ∧
    signupReq (some ("invalidemail".data)) (some ("password123".data))
      none none 0 [] = badEmailResp ∧
    signupReq (some ("a@b.cd".data)) (some ("12345".data)) none none 0 []
      = shortPasswordResp ∧
    signupReq (some ("john@example.com".data)) (some ("password123".data))
      none none 0 [] = conflictResp ∧
    (signupReq (some ("fresh@x.com".data)) (some ("password123".data))
        none none 0 []).status = 201 ∧
    EmailShape ("a@b.cd".data) := by
  refine ⟨signup_validation_order.1 none (some ("password123".data))
      none none 0 [] (by decide),
    signup_validation_order.2.1 ("invalidemail".data) ("password123".data)
      none none 0 [] (by decide) (by decide) (by decide),
    signup_validation_order.2.2.1 ("a@b.cd".data) ("12345".data)
      none none 0 [] (by decide) (by decide) (by decide) (by decide),
    signup_validation_order.2.2.2.1 ("john@example.com".data)
      ("password123".data) none none 0 [] johnUser
      (by decide) (by decide) (by decide) (by decide) (by decide),
    (signup_validation_order.2.2.2.2.1 ("fresh@x.com".data)
      ("password123".data) none none 0 []
      (by decide) (by decide) (by decide) (by decide) (by decide)).1,
    (signup_validation_order.2.2.2.2.2 ("a@b.cd".data)).mp (by decide)⟩

/-- C5 (confirmed): login validates presence only, never length.  For every
login request with non-empty email and password — of any length — the
response is never a 400 and never carries the password-length message; in
particular a known email with the too-short wrong password `12345` gets the
401 "Invalid email or password" response, not a 400. -/
theorem login_no_length_validation :
    (∀ (e p : Str) (now : Nat), e ≠ [] → p ≠ [] →
        (loginReq (some e) (some p) now).status ≠ 400 ∧
        (loginReq (some e) (some p) now).message ≠ some msgShortPassword) ∧
    loginReq (some ("john@example.com".data)) (some ("12345".data)) 0
      = invalidCredResp := by
  constructor
  · intro e p now he hp
    cases hfind : mockUsers.find? (fun v => v.email == e) with
    | none =>
      have hr : loginReq (some e) (some p) now = invalidCredResp := by
        simp [loginReq, loginCore, falsy_some_ne e he, falsy_some_ne p hp,
          hfind]
      rw [hr]
      exact ⟨by decide, by decide⟩
    | some u =>
      by_cases hcred : validCredentials e = some p
      · have hr : loginReq (some e) (some p) now
            = ⟨200, true, some msgLoginOk, some (loginUserObj u),
               some (generateMockToken u.id u.email now)⟩ := by
          simp [loginReq, loginCore, falsy_some_ne e he, falsy_some_ne p hp,
            hfind, hcred]
        have hmsg : msgLoginOk ≠ msgShortPassword := by decide
        rw [hr]
        exact ⟨by simp, by simp [hmsg]⟩
      · have hr : loginReq (some e) (some p) now = invalidCredResp := by
          simp [loginReq, loginCore, falsy_some_ne e he, falsy_some_ne p hp,
            hfind, hcred]
        rw [hr]
        exact ⟨by decide, by decide⟩
  · decide

/-- Witness for C5: a non-empty but short password on a known email is not
answered with a 400. -/
theorem login_no_length_validation_witness :
    (loginReq (some ("jane@example.com".data)) (some ("123".data)) 0).status
      ≠ 400 :=
  (login_no_length_validation.1 ("jane@example.com".data) ("123".data) 0
    (by decide) (by decide)).1

/-- C6 (confirmed): the GetCurrentUser case analysis.  An absent header, and
a present header not starting with `Bearer ` (the code's reading of "not of
the form `Bearer <token>`"), both get 401 "No token provided"; a header
whose token piece is empty or fails the `mock-jwt-token-` validation — the
mock's notion of a token that cannot be resolved — gets 401 "Invalid or
expired token"; a token whose embedded identifier matches no stored user
gets 404 "User not found"; otherwise the response is 200 with the matched
user. -/
theorem me_case_analysis :
    (meReq none = noTokenResp) ∧
    (∀ h : Str, bearerMark.isPrefixOf h = false → meReq (some h) = noTokenResp) ∧
    (∀ h : Str, bearerMark.isPrefixOf h = true →
        (meToken h = [] ∨ tokenMark.isPrefixOf (meToken h) = false) →
        meReq (some h) = badTokenResp) ∧
    (∀ h : Str, bearerMark.isPrefixOf h = true →
        tokenMark.isPrefixOf (meToken h) = true →
        lookupByToken mockUsers (meToken h) = none →
        meReq (some h) = userNotFoundResp) ∧
    (∀ (h : Str) (u : User), bearerMark.isPrefixOf h = true →
        tokenMark.isPrefixOf (meToken h) = true →
        lookupByToken mockUsers (meToken h) = some u →
        meReq (some h) = meOkResp u) := by
  have hne_of_pre : ∀ h : Str, bearerMark.isPrefixOf h = true →
      h.isEmpty = false := by
    intro h hpre
    cases h with
    | nil => exact absurd hpre (by decide)
    | cons c t => rfl
  have htne_of_pre : ∀ h : Str, tokenMark.isPrefixOf (meToken h) = true →
      (meToken h).isEmpty = false := by
    intro h htpre
    cases htk : meToken h with
    | nil => rw [htk] at htpre; exact absurd htpre (by decide)
    | cons c t => rfl
  refine ⟨rfl, ?_, ?_, ?_, ?_⟩
  · intro h hpre
    simp [meReq, meCore, hpre]
  · intro h hpre hbad
    rcases hbad with hemp | hbadpre
    · simp [meReq, meCore, hne_of_pre h hpre, hpre, hemp]
    · simp [meReq, meCore, hne_of_pre h hpre, hpre, hbadpre]
  · intro h hpre htpre hfind
    simp [meReq, meCore, hne_of_pre h hpre, hpre, htne_of_pre h htpre,
      htpre, hfind]
  · intro h u hpre htpre hfind
    simp [meReq, meCore, hne_of_pre h hpre, hpre, htne_of_pre h htpre,
      htpre, hfind]

/-- Witness for C6: a concrete instance of each of the five cases, with
`Basic abc` (wrong scheme), `Bearer garbage` (failed token validation),
an unknown id 99 (404) and the stored id 1 (200). -/
theorem me_case_analysis_witness :
    meReq none = noTokenResp ∧
    meReq (some ("Basic abc".data)) = noTokenResp ∧
    meReq (some ("Bearer garbage".data)) = badTokenResp ∧
    meReq (some ("Bearer mock-jwt-token-99-x".data)) = userNotFoundResp ∧
    meReq (some ("Bearer mock-jwt-token-1-x".data)) = meOkResp johnUser :=
  ⟨me_case_analysis.1,
   me_case_analysis.2.1 ("Basic abc".data) (by decide),
   me_case_analysis.2.2.1 ("Bearer garbage".data) (by decide)
     (Or.inr (by decide)),
   me_case_analysis.2.2.2.1 ("Bearer mock-jwt-token-99-x".data)
     (by decide) (by decide) (by decide),
   me_case_analysis.2.2.2.2 ("Bearer mock-jwt-token-1-x".data) johnUser
     (by decide) (by decide) (by decide)⟩

/-- C7 (confirmed): no credential leakage.  Whenever a login, signup or
GetCurrentUser response carries a `user` object (which is exactly the
successful case: every failure response carries none), no key of that
object is `password` — the stored hash, which lives under the key
`password`, is never copied into a response. -/
theorem responses_omit_password :
    (∀ (email password : Option Str) (now : Nat) (obj : JObj),
        (loginReq email password now).user = some obj →
        ∀ kv ∈ obj, kv.1 ≠ "password") ∧
    (∀ (email password firstName lastName : Option Str) (now : Nat)
        (iso : Str) (obj : JObj),
        (signupReq email password firstName lastName now iso).user = some obj →
        ∀ kv ∈ obj, kv.1 ≠ "password") ∧
    (∀ (h : Option Str) (obj : JObj),
        (meReq h).user = some obj →
        ∀ kv ∈ obj, kv.1 ≠ "password") := by
  refine ⟨?_, ?_, ?_⟩
  · intro email password now obj hobj kv hkv
    unfold loginReq loginCore at hobj
    split at hobj
    · simp [requiredResp] at hobj
    · split at hobj
      · simp [invalidCredResp] at hobj
      · split at hobj
        · simp [invalidCredResp] at hobj
        · simp only [Option.some.injEq] at hobj
          subst hobj
          simp only [loginUserObj, List.mem_cons, List.not_mem_nil,
            or_false] at hkv
          rcases hkv with rfl | rfl | rfl | rfl <;> simp
  · intro email password fn ln now iso obj hobj kv hkv
    unfold signupReq signupCore at hobj
    split at hobj
    · simp [requiredResp] at hobj
    · split at hobj
      · simp [badEmailResp] at hobj
      · split at hobj
        · simp [shortPasswordResp] at hobj
        · split at hobj
          · simp [conflictResp] at hobj
          · simp only [Option.some.injEq] at hobj
            subst hobj
            simp only [newUserObj, List.mem_cons, List.not_mem_nil,
              or_false] at hkv
            rcases hkv with rfl | rfl | rfl | rfl | rfl <;> simp
  · intro h obj hobj kv hkv
    unfold meReq meCore at hobj
    split at hobj
    · simp [noTokenResp] at hobj
    · split at hobj
      · simp [noTokenResp] at hobj
      · split at hobj
        · simp [badTokenResp] at hobj
        · split at hobj
          · simp [userNotFoundResp] at hobj
          · simp only [meOkResp, Option.some.injEq] at hobj
            subst hobj
            simp only [meUserObj, List.mem_cons, List.not_mem_nil,
              or_false] at hkv
            rcases hkv with rfl | rfl | rfl | rfl | rfl <;> simp

/-- Witness for C7: the `email` entry of the user object of a concrete
successful login is not a `password` field. -/
theorem responses_omit_password_witness :
    ("email", JVal.jstr ("john@example.com".data)).1 ≠ "password" :=
  responses_omit_password.1 (some ("john@example.com".data))
    (some ("password123".data)) 0 (loginUserObj johnUser) (by decide)
    ("email", JVal.jstr ("john@example.com".data)) (by decide)

/-- C8 (confirmed): in every reachable state of the client auth store, the
derived `isAuthenticated` flag is true exactly when a user record is held,
and a state that holds a token with no user yet — a token being resolved —
is not authenticated. -/
theorem auth_flag_iff_user :
    ∀ s : ClientState, ReachableClient s →
      ((isAuthenticated s = true) ↔ ∃ u, s.user = some u) ∧
      (∀ t : Str, s.token = some t → s.user = none →
        isAuthenticated s = false) := by
  intro s _
  constructor
  · simp [isAuthenticated, Option.isSome_iff_exists]
  · intro t ht hu
    simp [isAuthenticated, hu]

/-- Witness for C8: the mount state with a durable token is reachable,
holds a token and no user, and is not authenticated. -/
theorem auth_flag_iff_user_witness :
    isAuthenticated (initClient (some ("mock-jwt-token-1-x".data))) = false :=
  (auth_flag_iff_user (initClient (some ("mock-jwt-token-1-x".data)))
      ⟨some ("mock-jwt-token-1-x".data), Relation.ReflTransGen.refl⟩).2
    ("mock-jwt-token-1-x".data) rfl rfl

/-- C9 (confirmed): bootstrap failure cleanup.  Starting the client with any
durable token, if the GetCurrentUser resolution fails for any reason — the
service answers with `success: false`, or the transport errors — the final
state holds no user, no token in memory, no durable token, and the loading
flag is cleared. -/
theorem bootstrap_failure_cleanup :
    ∀ (t : Str) (o : FetchOutcome), FetchFailed o →
      bootstrapClient (some t) o = unauthDone := by
  intro t o ho
  rcases ho with rfl | ⟨r, rfl, hr⟩
  · rfl
  · simp [bootstrapClient, applyFetch, initClient, logoutClient, unauthDone,
      hr]

/-- Witness for C9: a transport failure while resolving a stale durable
token ends in the cleared state. -/
theorem bootstrap_failure_cleanup_witness :
    bootstrapClient (some ("stale".data)) FetchOutcome.netError = unauthDone :=
  bootstrap_failure_cleanup ("stale".data) FetchOutcome.netError (Or.inl rfl)

/-- C10 (confirmed): token acceptance is prefix-and-id only.  Any
space-free string that starts with `mock-jwt-token-` and whose fourth
dash-separated segment parses (JS `parseInt`) to the id of a stored user is
accepted by GetCurrentUser with 200 and that user — whether or not it was
ever issued — and every token generated by `generateMockToken` over a
stored user is accepted at every time, so no signature or expiry check ever
rejects an issued token. -/
theorem me_token_prefix_and_id_only :
    (∀ (tok : Str) (i : Int) (u : User),
        tokenMark.isPrefixOf tok = true → ' ' ∉ tok →
        tokenUserId tok = some i → u ∈ mockUsers → (u.id : Int) = i →
        meReq (some (bearerMark ++ tok)) = meOkResp u) ∧
    (∀ (u : User) (now : Nat), u ∈ mockUsers →
        meReq (some (bearerMark ++ generateMockToken u.id u.email now))
          = meOkResp u) := by
  constructor
  · exact fun tok i u hpre hsp hid hu hiu =>
      meReq_accepts tok i u hpre hsp hid hu hiu
  · intro u now hu
    have hemail : ' ' ∉ u.email := by fin_cases hu <;> decide
    have hmem : u ∈ mockUsers := hu
    refine meReq_accepts (generateMockToken u.id u.email now) (u.id : Int) u
      ?_ (space_not_in_gen u.id u.email hemail now)
      (tokenUserId_gen u.id u.email now) hmem rfl
    rw [generateMockToken_shape]
    exact isPrefixOf_append_self _ _

/-- Witness for C10: the never-issued string `mock-jwt-token-2-forged` is
accepted as user 2, and a generated token for user 1 at time 0 is
accepted. -/
theorem me_token_prefix_and_id_only_witness :
    meReq (some (bearerMark ++ "mock-jwt-token-2-forged".data))
      = meOkResp janeUser ∧
    meReq (some (bearerMark ++ generateMockToken johnUser.id johnUser.email 0))
      = meOkResp johnUser :=
  ⟨me_token_prefix_and_id_only.1 ("mock-jwt-token-2-forged".data) 2 janeUser
     (by decide) (by decide) (by decide) (by decide) (by decide),
   me_token_prefix_and_id_only.2 johnUser 0 (by decide)⟩

end ShopMart
